import Mathlib

/-!
Shallow embedding of the zgsm authentication module
(src/core/auth/{authService,authStorage,authConfig,authApi}.ts and
src/utils/zgsmUtils.ts) together with theorems settling the frozen claims.

Conventions of the embedding:
* JavaScript strings are Lean `String`s; values that may be `undefined`
  at runtime are `Option String` (the TS types declare them as `string`,
  but the code paths can and do produce `undefined`).
* JavaScript truthiness of a possibly-undefined string is `truthy`:
  `undefined` and the empty string are falsy.
* `Date.now()` is passed explicitly as a parameter `now : Int`.
* Exceptions are `Except String` values carrying the error message.
* Asynchronous timers are modelled as fields of an explicit service
  state; fetch results are supplied as oracles `Nat → Except String _`
  indexed by the attempt number.
-/

deriving instance DecidableEq for Except

/-! ## Base64 (JS `atob`, WHATWG forgiving-base64) -/

def b64Val (c : Char) : Option Nat :=
  if 'A' ≤ c ∧ c ≤ 'Z' then some (c.toNat - 'A'.toNat)
  else if 'a' ≤ c ∧ c ≤ 'z' then some (c.toNat - 'a'.toNat + 26)
  else if '0' ≤ c ∧ c ≤ '9' then some (c.toNat - '0'.toNat + 52)
  else if c = '+' then some 62
  else if c = '/' then some 63
  else none

def isB64Ws (c : Char) : Bool :=
  c = ' ' ∨ c = '\t' ∨ c = '\n' ∨ c = '\r' ∨ c.toNat = 12

def stripB64Pad (cs : List Char) : List Char :=
  if cs.length % 4 = 0 then
    match cs.reverse with
    | '=' :: '=' :: rest => rest.reverse
    | '=' :: rest => rest.reverse
    | _ => cs
  else cs

def b64Bytes : List Nat → Option (List Nat)
  | [] => some []
  | [_] => none
  | [a, b] => some [a * 4 + b / 16]
  | [a, b, c] => some [a * 4 + b / 16, (b % 16) * 16 + c / 4]
  | a :: b :: c :: d :: rest =>
    (b64Bytes rest).map
      (fun r => (a * 4 + b / 16) :: ((b % 16) * 16 + c / 4) :: ((c % 4) * 64 + d) :: r)

def atob (s : String) : Option String :=
  let cs := s.data.filter (fun c => ¬ isB64Ws c)
  let cs := stripB64Pad cs
  if cs.length % 4 = 1 then none
  else
    match cs.mapM b64Val with
    | none => none
    | some vals =>
      match b64Bytes vals with
      | none => none
      | some bytes => some (String.mk (bytes.map Char.ofNat))

/-! ## Minimal JSON (`JSON.parse`)

Restricted to what JWT payloads use: objects, arrays, strings with the
common escapes, integer numbers, booleans and null.  Numbers with a
fraction or exponent part are outside the model. -/

inductive JsonValue where
  | null
  | bool (b : Bool)
  | num (n : Int)
  | str (s : String)
  | arr (elems : List JsonValue)
  | obj (fields : List (String × JsonValue))

def skipWs : List Char → List Char
  | c :: rest => if c = ' ' ∨ c = '\t' ∨ c = '\n' ∨ c = '\r' then skipWs rest else c :: rest
  | [] => []

def hexVal (c : Char) : Option Nat :=
  if '0' ≤ c ∧ c ≤ '9' then some (c.toNat - '0'.toNat)
  else if 'a' ≤ c ∧ c ≤ 'f' then some (c.toNat - 'a'.toNat + 10)
  else if 'A' ≤ c ∧ c ≤ 'F' then some (c.toNat - 'A'.toNat + 10)
  else none

def parseEscape : List Char → Option (Char × List Char)
  | '"' :: rest => some ('"', rest)
  | '\\' :: rest => some ('\\', rest)
  | '/' :: rest => some ('/', rest)
  | 'n' :: rest => some ('\n', rest)
  | 't' :: rest => some ('\t', rest)
  | 'r' :: rest => some ('\r', rest)
  | 'b' :: rest => some (Char.ofNat 8, rest)
  | 'f' :: rest => some (Char.ofNat 12, rest)
  | 'u' :: h1 :: h2 :: h3 :: h4 :: rest =>
    match hexVal h1, hexVal h2, hexVal h3, hexVal h4 with
    | some v1, some v2, some v3, some v4 =>
      some (Char.ofNat (v1 * 4096 + v2 * 256 + v3 * 16 + v4), rest)
    | _, _, _, _ => none
  | _ => none

def parseJsonString : Nat → List Char → Option (String × List Char)
  | 0, _ => none
  | _, [] => none
  | fuel + 1, c :: rest =>
    if c = '"' then some ("", rest)
    else if c = '\\' then
      match parseEscape rest with
      | some (ch, r) => (parseJsonString fuel r).map (fun p => (ch.toString ++ p.1, p.2))
      | none => none
    else (parseJsonString fuel rest).map (fun p => (c.toString ++ p.1, p.2))

def digitVal (c : Char) : Option Nat :=
  if '0' ≤ c ∧ c ≤ '9' then some (c.toNat - '0'.toNat) else none

def parseDigitsAux : List Char → Nat → Nat × List Char
  | c :: rest, acc =>
    match digitVal c with
    | some d => parseDigitsAux rest (acc * 10 + d)
    | none => (acc, c :: rest)
  | [], acc => (acc, [])

def parseDigits : List Char → Option (Nat × List Char)
  | c :: rest =>
    match digitVal c with
    | some d => some (parseDigitsAux rest d)
    | none => none
  | [] => none

def parseJsonNumber (cs : List Char) : Option (Int × List Char) :=
  match cs with
  | '-' :: rest => (parseDigits rest).map (fun p => (-(p.1 : Int), p.2))
  | _ => (parseDigits cs).map (fun p => ((p.1 : Int), p.2))

mutual

def parseJsonValue : Nat → List Char → Option (JsonValue × List Char)
  | 0, _ => none
  | fuel + 1, cs =>
    match skipWs cs with
    | '"' :: rest =>
      (parseJsonString (rest.length + 1) rest).map (fun p => (JsonValue.str p.1, p.2))
    | '{' :: rest =>
      match skipWs rest with
      | '}' :: r => some (JsonValue.obj [], r)
      | cs2 => (parseJsonMembers fuel cs2).map (fun p => (JsonValue.obj p.1, p.2))
    | '[' :: rest =>
      match skipWs rest with
      | ']' :: r => some (JsonValue.arr [], r)
      | cs2 => (parseJsonElems fuel cs2).map (fun p => (JsonValue.arr p.1, p.2))
    | 't' :: 'r' :: 'u' :: 'e' :: rest => some (JsonValue.bool true, rest)
    | 'f' :: 'a' :: 'l' :: 's' :: 'e' :: rest => some (JsonValue.bool false, rest)
    | 'n' :: 'u' :: 'l' :: 'l' :: rest => some (JsonValue.null, rest)
    | cs2 => (parseJsonNumber cs2).map (fun p => (JsonValue.num p.1, p.2))

def parseJsonMembers : Nat → List Char → Option (List (String × JsonValue) × List Char)
  | 0, _ => none
  | fuel + 1, cs =>
    match skipWs cs with
    | '"' :: rest =>
      match parseJsonString (rest.length + 1) rest with
      | none => none
      | some (key, r1) =>
        match skipWs r1 with
        | ':' :: r2 =>
          match parseJsonValue fuel r2 with
          | none => none
          | some (v, r3) =>
            match skipWs r3 with
            | ',' :: r4 => (parseJsonMembers fuel r4).map (fun p => ((key, v) :: p.1, p.2))
            | '}' :: r4 => some ([(key, v)], r4)
            | _ => none
        | _ => none
    | _ => none

def parseJsonElems : Nat → List Char → Option (List JsonValue × List Char)
  | 0, _ => none
  | fuel + 1, cs =>
    match parseJsonValue fuel cs with
    | none => none
    | some (v, r1) =>
      match skipWs r1 with
      | ',' :: r2 => (parseJsonElems fuel r2).map (fun p => (v :: p.1, p.2))
      | ']' :: r2 => some ([v], r2)
      | _ => none

end

def jsonParse (s : String) : Option JsonValue :=
  match parseJsonValue (s.length + 1) s.data with
  | some (v, rest) => if (skipWs rest).isEmpty then some v else none
  | none => none

/-- Property lookup on a parsed JSON value; `JSON.parse` keeps the last
duplicate key, so the last matching field wins. -/
def jsonLookup (j : JsonValue) (key : String) : Option JsonValue :=
  match j with
  | JsonValue.obj fields => ((fields.filter (fun kv => kv.1 == key)).getLast?).map (fun kv => kv.2)
  | _ => none

/-! ## JS numeric coercion of the `exp` claim

`(exp - 1800)` coerces `exp` to a number: `undefined` gives NaN, `null`
gives 0, booleans give 0/1.  Strings and objects are approximated as NaN
(numeric strings would coerce in JS; no claim depends on that corner). -/

inductive JsNum where
  | num (n : Int)
  | nan
deriving DecidableEq

def toNumber (v : Option JsonValue) : JsNum :=
  match v with
  | none => JsNum.nan
  | some JsonValue.null => JsNum.num 0
  | some (JsonValue.bool b) => JsNum.num (if b then 1 else 0)
  | some (JsonValue.num n) => JsNum.num n
  | some (JsonValue.str _) => JsNum.nan
  | some (JsonValue.arr _) => JsNum.nan
  | some (JsonValue.obj _) => JsNum.nan

/-! ## src/utils/zgsmUtils.ts -/

/-- JS `String.prototype.split` with a single-character separator
(structural recursion so that proofs can evaluate it). -/
def splitOnChar (sep : Char) : List Char → List (List Char)
  | [] => [[]]
  | c :: rest =>
    let r := splitOnChar sep rest
    if c = sep then [] :: r
    else
      match r with
      | h :: t => (c :: h) :: t
      | [] => [[c]]

/-- `parseJwt` from zgsmUtils.ts: split on dots, require exactly three
parts, base64url-decode the payload and `JSON.parse` it.  Errors carry
the JS exception message (`Invalid JWT` for the explicit throw; the
`atob` / `JSON.parse` failures keep their own messages). -/
def parseJwt (token : String) : Except String JsonValue :=
  match splitOnChar '.' token.data with
  | [_, payload, _] =>
    let b64 := String.mk (payload.map (fun c => if c = '-' then '+' else if c = '_' then '/' else c))
    match atob b64 with
    | none => Except.error "InvalidCharacterError"
    | some decoded =>
      match jsonParse decoded with
      | none => Except.error "Unexpected token in JSON"
      | some j => Except.ok j
  | _ => Except.error "Invalid JWT"

/-- The `exp` claim as the JS destructuring `const \x7b exp \x7d = parseJwt t`
followed by numeric coercion sees it. -/
def parseJwtExp (token : String) : Except String JsNum :=
  match parseJwt token with
  | Except.error e => Except.error e
  | Except.ok j => Except.ok (toNumber (jsonLookup j "exp"))

/-- `retryWrapper` loop body from zgsmUtils.ts.  `fn` is the outcome of
the wrapped operation at each (0-based) attempt; the second component of
the result collects every backoff delay actually awaited.  Note the
source awaits `interval(attempt)` inside the catch even when the failed
attempt was the last one, only then re-checks the loop bound and throws. -/
def retryLoop (fn : Nat → Except String α) (interval : Nat → Nat) :
    Nat → Nat → Except String α × List Nat
  | attempt, 0 => (Except.error ("Operation failed after " ++ toString attempt ++ " attempts"), [])
  | attempt, remaining + 1 =>
    match fn attempt with
    | Except.ok v => (Except.ok v, [])
    | Except.error e =>
      let d := interval attempt
      match remaining with
      | 0 => (Except.error e, [d])
      | r + 1 =>
        let rec2 := retryLoop fn interval (attempt + 1) (r + 1)
        (rec2.1, d :: rec2.2)

/-- Default backoff of `retryWrapper`: `1000 * 2^attempt` milliseconds. -/
def defaultInterval (attempt : Nat) : Nat := 1000 * 2 ^ attempt

/-- `retryWrapper` from zgsmUtils.ts: at least one attempt is always
made (`Math.max(1, maxAttempt)`). -/
def retryWrapper (fn : Nat → Except String α) (interval : Nat → Nat) (maxAttempt : Nat) :
    Except String α × List Nat :=
  retryLoop fn interval 0 (max 1 maxAttempt)

/-! ## src/core/auth/authConfig.ts -/

/-- JS truthiness of a possibly-undefined string. -/
def truthy (o : Option String) : Bool :=
  match o with
  | none => false
  | some s => s ≠ ""

/-- `AuthConfig.getTokenRefreshInterval`: 24h fallback when the token is
absent or empty (falsy), otherwise decode the JWT that was passed in
(the call sites pass the refresh token) and compute
`min((exp - 1800) * 1000 - Date.now(), 2147483647)`, returning 3000 when
that value is not positive.  A payload decoding to JSON `null` makes the
JS destructuring throw; a missing or non-numeric `exp` makes the
comparison with 0 false via NaN, yielding 3000. -/
def getTokenRefreshInterval (now : Int) (refreshToken : Option String) : Except String Int :=
  if ¬ truthy refreshToken then Except.ok (24 * 60 * 60 * 1000)
  else
    match parseJwt (refreshToken.getD "") with
    | Except.error e => Except.error e
    | Except.ok JsonValue.null => Except.error "Cannot destructure"
    | Except.ok j =>
      match toNumber (jsonLookup j "exp") with
      | JsNum.num exp =>
        let refreshInterval := min ((exp - 1800) * 1000 - now) 2147483647
        Except.ok (if refreshInterval > 0 then refreshInterval else 3000)
      | JsNum.nan => Except.ok 3000

/-- `AuthConfig.getWaitLoginPollingInterval` (5 seconds). -/
def getWaitLoginPollingInterval : Nat := 5000

/-! ## src/core/auth/types.ts -/

inductive AuthStatus where
  | NOT_LOGGED_IN
  | LOGGING_IN
  | LOGGED_IN
  | LOGIN_FAILED
  | TOKEN_EXPIRED
deriving DecidableEq

/-- `AuthTokens`: the TS interface declares plain strings, but the
response data and the values round-tripped through the store can be
`undefined` at runtime, so the fields are `Option String`. -/
structure AuthTokens where
  access_token : Option String
  refresh_token : Option String
  state : Option String
deriving DecidableEq

structure LoginState where
  state : String
  machineId : Option String
deriving DecidableEq

/-! ## src/core/auth/authStorage.ts

The storage backend is the `ClineProvider` state: presence of a provider
(`hasProvider`), the `currentApiConfigName`, and the three persisted
zgsm values.  `writeLog` records every `setValue` /
`upsertProviderProfile` call actually performed, in order. -/

inductive WriteOp where
  | setValue (key : String) (value : Option String)
  | upsertProfile (name : String)
deriving DecidableEq

structure StoreState where
  hasProvider : Bool
  currentApiConfigName : Option String
  zgsmAccessToken : Option String
  zgsmRefreshToken : Option String
  zgsmState : Option String
  writeLog : List WriteOp
deriving DecidableEq

/-- `AuthStorage.saveTokens`: returns untouched without a provider or
without a `currentApiConfigName`; otherwise unconditionally performs the
three `setValue` writes and the profile upsert (there is no
changed-value check in the source). -/
def AuthStorage.saveTokens (s : StoreState) (tokens : AuthTokens) : StoreState :=
  if ¬ s.hasProvider then s
  else if ¬ truthy s.currentApiConfigName then s
  else
    { s with
      zgsmRefreshToken := tokens.refresh_token
      zgsmAccessToken := tokens.access_token
      zgsmState := tokens.state
      writeLog := s.writeLog ++
        [WriteOp.setValue "zgsmRefreshToken" tokens.refresh_token,
         WriteOp.setValue "zgsmAccessToken" tokens.access_token,
         WriteOp.setValue "zgsmState" tokens.state,
         WriteOp.upsertProfile (s.currentApiConfigName.getD "")] }

/-- `AuthStorage.getTokens`: `null` without a provider, otherwise the
three persisted values assembled into an `AuthTokens` (fields may be
`undefined`). -/
def AuthStorage.getTokens (s : StoreState) : Option AuthTokens :=
  if ¬ s.hasProvider then none
  else some ⟨s.zgsmAccessToken, s.zgsmRefreshToken, s.zgsmState⟩

/-- `AuthStorage.saveLoginState`. -/
def AuthStorage.saveLoginState (s : StoreState) (loginState : LoginState) : StoreState :=
  if ¬ s.hasProvider then s
  else if ¬ truthy s.currentApiConfigName then s
  else
    { s with
      zgsmState := some loginState.state
      writeLog := s.writeLog ++
        [WriteOp.setValue "zgsmState" (some loginState.state),
         WriteOp.upsertProfile (s.currentApiConfigName.getD "")] }

/-- `AuthStorage.clearAllLoginState`. -/
def AuthStorage.clearAllLoginState (s : StoreState) : StoreState :=
  if ¬ s.hasProvider then s
  else if ¬ truthy s.currentApiConfigName then s
  else
    { s with
      zgsmAccessToken := none
      zgsmRefreshToken := none
      zgsmState := none
      writeLog := s.writeLog ++
        [WriteOp.setValue "zgsmAccessToken" none,
         WriteOp.setValue "zgsmRefreshToken" none,
         WriteOp.setValue "zgsmState" none,
         WriteOp.upsertProfile (s.currentApiConfigName.getD "")] }

/-! ## src/core/auth/authApi.ts (the parts the claims need) -/

/-- `LoginTokenResponse` of authApi.ts; `data` is the token triple. -/
structure LoginTokenResponse where
  success : Bool
  data : Option AuthTokens
  message : Option String
deriving DecidableEq

/-- Response data of `getUserLoginState` (`LoginState` with an optional
status, fields possibly absent at runtime). -/
structure LoginStateData where
  state : Option String
  status : Option AuthStatus
deriving DecidableEq

structure LoginStateResponse where
  success : Bool
  data : Option LoginStateData
deriving DecidableEq

/-- `AuthApi.logoutUser`: the entire body is wrapped in try/catch and a
failure of the revoke request is only logged, never rethrown. -/
def AuthApi.logoutUser (fetchOutcome : Except String Unit) : Except String Unit :=
  match fetchOutcome with
  | Except.ok _ => Except.ok ()
  | Except.error _ => Except.ok ()

/-! ## src/core/auth/authService.ts -/

/-- The armed token-refresh timer: its delay in milliseconds and the
arguments the firing will pass to `refreshToken`. -/
structure RefreshTimer where
  intervalMs : Int
  refreshToken : String
  machineId : String
  state : String
deriving DecidableEq

/-- Mutable fields of `ZgsmAuthService` that the claims concern: the
current login state and which timers are armed. -/
structure ServiceState where
  loginStateTmp : Option LoginState
  waitLoginPollingArmed : Bool
  tokenRefreshTimer : Option RefreshTimer
  startLoginTokenPollArmed : Bool
  disposed : Bool
deriving DecidableEq

def ZgsmAuthService.stopStartLoginTokenPoll (svc : ServiceState) : ServiceState :=
  { svc with startLoginTokenPollArmed := false }

def ZgsmAuthService.stopWaitLoginPolling (svc : ServiceState) : ServiceState :=
  { svc with waitLoginPollingArmed := false }

def ZgsmAuthService.stopRefreshToken (svc : ServiceState) : ServiceState :=
  { svc with tokenRefreshTimer := none }

/-- `ZgsmAuthService.startTokenRefresh`: stop the previous timer, do
nothing when disposed, otherwise evaluate
`getTokenRefreshInterval(refreshToken)` — whose exception propagates out
of `startTokenRefresh` with no timer armed — and arm the timer with the
computed delay. -/
def ZgsmAuthService.startTokenRefresh (now : Int) (svc : ServiceState)
    (refreshToken machineId state : String) : Except String ServiceState :=
  let svc := ZgsmAuthService.stopRefreshToken svc
  if svc.disposed then Except.ok svc
  else
    match getTokenRefreshInterval now (some refreshToken) with
    | Except.error e => Except.error e
    | Except.ok i =>
      Except.ok { svc with tokenRefreshTimer := some ⟨i, refreshToken, machineId, state⟩ }

/-- Acceptance test of `refreshToken` on a response:
`success && data && data.access_token && data.refresh_token &&
this.loginStateTmp?.state === data.state` (strict equality of two
possibly-undefined strings). -/
def refreshAccept (svc : ServiceState) (resp : LoginTokenResponse) : Bool :=
  resp.success &&
    (match resp.data with
     | none => false
     | some d =>
       truthy d.access_token && truthy d.refresh_token &&
         (svc.loginStateTmp.map LoginState.state == d.state))

/-- `ZgsmAuthService.refreshToken`: the api call is wrapped by
`retryWrapper` with the default interval and 3 attempts; on an accepted
response the tokens are saved and, when `auto`, the refresh timer is
re-armed (an exception from that re-arm escapes the try with the tokens
already saved); otherwise the typed error `[state]…` is thrown and
nothing is saved.  Result: (returned value or error, service state,
store state). -/
def ZgsmAuthService.refreshToken (now : Int) (svc : ServiceState) (store : StoreState)
    (attempts : Nat → Except String LoginTokenResponse)
    (machineId state : String) (auto : Bool) :
    Except String AuthTokens × ServiceState × StoreState :=
  match (retryWrapper attempts defaultInterval 3).1 with
  | Except.error e => (Except.error e, svc, store)
  | Except.ok resp =>
    if refreshAccept svc resp then
      match resp.data with
      | some d =>
        let store2 := AuthStorage.saveTokens store d
        if auto then
          match ZgsmAuthService.startTokenRefresh now svc (d.refresh_token.getD "") machineId state with
          | Except.ok svc2 => (Except.ok d, svc2, store2)
          | Except.error e => (Except.error e, ZgsmAuthService.stopRefreshToken svc, store2)
        else (Except.ok d, svc, store2)
      | none => (Except.error ("[" ++ state ++ "]" ++ "刷新token失败"), svc, store)
    else
      (Except.error ("[" ++ state ++ "]" ++ (resp.message.getD "刷新token失败")), svc, store)

/-- Acceptance test of the initial token poll (`getStartLoginTokenPoll`):
`result.data?.access_token && result.data?.refresh_token &&
result.data?.state === state` — note there is no `success` check here. -/
def tokenPollAccept (stateArg : String) (r : LoginTokenResponse) : Bool :=
  match r.data with
  | none => false
  | some d =>
    truthy d.access_token && truthy d.refresh_token && (d.state == some stateArg)

/-- Outcome of the initial token poll.  `stalled` marks the source's
error path: the `.catch` handler of an attempt only logs — it neither
schedules the next attempt nor rejects, so the promise never settles. -/
inductive TokenPollOutcome where
  | resolved (r : LoginTokenResponse)
  | rejectedTimeout
  | rejectedDisposed
  | stalled
deriving DecidableEq

/-- One `run()` cascade of `getStartLoginTokenPoll`.  `attempt` is the
0-based count of completed entries (the source increments before the
bound check, so entry number `attempt+1` times out when it exceeds 60).
The fuel argument is only a termination device; 61 is always enough. -/
def getStartLoginTokenPollRun (stateArg : String)
    (responses : Nat → Except String LoginTokenResponse) :
    Nat → Nat → TokenPollOutcome
  | _, 0 => TokenPollOutcome.stalled
  | attempt, fuel + 1 =>
    if attempt + 1 > 60 then TokenPollOutcome.rejectedTimeout
    else
      match responses attempt with
      | Except.error _ => TokenPollOutcome.stalled
      | Except.ok r =>
        if tokenPollAccept stateArg r then TokenPollOutcome.resolved r
        else getStartLoginTokenPollRun stateArg responses (attempt + 1) fuel

/-- `ZgsmAuthService.getStartLoginTokenPoll`: rejects immediately when
disposed, otherwise runs the bounded poll. -/
def ZgsmAuthService.getStartLoginTokenPoll (svc : ServiceState) (stateArg : String)
    (responses : Nat → Except String LoginTokenResponse) : TokenPollOutcome :=
  if svc.disposed then TokenPollOutcome.rejectedDisposed
  else getStartLoginTokenPollRun stateArg responses 0 61

/-- Acceptance test of the confirmation poll (`pollLoginState`):
`success && data?.state && data.state === this.loginStateTmp?.state &&
data?.status === AuthStatus.LOGGED_IN`. -/
def waitPollAccept (svc : ServiceState) (resp : LoginStateResponse) : Bool :=
  resp.success &&
    (match resp.data with
     | none => false
     | some d =>
       truthy d.state && (d.state == svc.loginStateTmp.map LoginState.state) &&
         (d.status == some AuthStatus.LOGGED_IN))

/-- The merged object `Object.assign(this.loginStateTmp, result.data)`
handed to `startWaitLoginPolling`: the login state of the attempt
together with the tentatively issued tokens. -/
structure WaitLoginClosure where
  state : String
  machineId : Option String
  access_token : Option String
  refresh_token : Option String
deriving DecidableEq

/-- The `AuthTokens` view of the closure, as passed to `saveTokens`. -/
def WaitLoginClosure.tokens (c : WaitLoginClosure) : AuthTokens :=
  ⟨c.access_token, c.refresh_token, some c.state⟩

def WaitLoginClosure.loginState (c : WaitLoginClosure) : LoginState :=
  ⟨c.state, c.machineId⟩

inductive WaitPollOutcome where
  | loginSuccess
  | continuePolling
  | timeoutStop
deriving DecidableEq

/-- One tick of the confirmation poll `pollLoginState`.  `resp` is the
outcome of the retry-wrapped `getUserLoginState` call for this tick
(errors are swallowed by the surrounding try/catch), `attempt` the
number of previously completed non-success ticks, `envMachineId` is
`vscode.env.machineId`.  On acceptance the tokens and login state are
saved, wait-polling stops and the refresh timer is armed from the
closure's refresh token; an exception from that arming is caught and the
tick falls through to the attempt check like a failed tick. -/
def pollLoginStateStep (now : Int) (svc : ServiceState) (store : StoreState)
    (c : WaitLoginClosure) (resp : Except String LoginStateResponse)
    (attempt : Nat) (envMachineId : String) :
    ServiceState × StoreState × WaitPollOutcome :=
  let proceed := fun (svc2 : ServiceState) (store2 : StoreState) =>
    if attempt + 1 > 60 then (svc2, store2, WaitPollOutcome.timeoutStop)
    else ({ svc2 with waitLoginPollingArmed := true }, store2, WaitPollOutcome.continuePolling)
  match resp with
  | Except.error _ => proceed svc store
  | Except.ok r =>
    if waitPollAccept svc r then
      let store2 := AuthStorage.saveLoginState (AuthStorage.saveTokens store c.tokens) c.loginState
      let svc2 := ZgsmAuthService.stopWaitLoginPolling svc
      match ZgsmAuthService.startTokenRefresh now svc2 (c.refresh_token.getD "")
          (if truthy c.machineId then c.machineId.getD "" else envMachineId) c.state with
      | Except.ok svc3 => (svc3, store2, WaitPollOutcome.loginSuccess)
      | Except.error _ => proceed (ZgsmAuthService.stopRefreshToken svc2) store2
    else proceed svc store

/-- The supersede prefix of `startLogin`: stop wait-polling, stop the
refresh timer, stop the initial token poll — executed before anything
else on every `startLogin()` call. -/
def startLoginSupersede (svc : ServiceState) : ServiceState :=
  ZgsmAuthService.stopStartLoginTokenPoll
    (ZgsmAuthService.stopRefreshToken (ZgsmAuthService.stopWaitLoginPolling svc))

/-- `ZgsmAuthService.startLogin` up to the hand-off to
`startWaitLoginPolling` (the confirmation poll is modelled separately by
`pollLoginStateStep`).  `newState` is the freshly generated login state,
`openResult` the outcome of `vscode.env.openExternal`, `responses` the
oracle of the initial token poll.  Result: (return value or raised
error, service state, whether `getStartLoginTokenPoll` was entered).
`openExternal` is awaited inside the try block, so its failure is shown
to the user by the catch and then rethrown without entering the poll.
A stalled poll never settles in the source; its marker error stands for
that hang. -/
def ZgsmAuthService.startLogin (svc0 : ServiceState) (newState : LoginState)
    (openResult : Except String Unit)
    (responses : Nat → Except String LoginTokenResponse) :
    Except String LoginState × ServiceState × Bool :=
  let svc := { startLoginSupersede svc0 with loginStateTmp := some newState }
  match openResult with
  | Except.error e => (Except.error e, svc, false)
  | Except.ok _ =>
    match ZgsmAuthService.getStartLoginTokenPoll svc newState.state responses with
    | TokenPollOutcome.resolved _ => (Except.ok newState, svc, true)
    | TokenPollOutcome.rejectedTimeout => (Except.error "获取登录token超时", svc, true)
    | TokenPollOutcome.rejectedDisposed => (Except.error "AuthService已销毁", svc, true)
    | TokenPollOutcome.stalled => (Except.error "promise never settles", svc, true)

/-- The continuation of `startLogin` after its initial token poll
resolves (authService.ts line 105):
`this.startWaitLoginPolling(Object.assign(this.loginStateTmp, result.data))`.
`this.loginStateTmp` is re-read at resolution time — after a second
`startLogin()` it is the *new* session's object — and `Object.assign`
mutates it in place, overwriting its `state` with the resolved
response's `state` (present fields only; JSON-parsed data has no
present-but-undefined fields).  The result is the mutated service state
and the merged object handed to `startWaitLoginPolling`.
`Object.assign(undefined, …)` would throw; `loginStateTmp` is always
set on this path. -/
def startLoginResolveContinuation (svc : ServiceState) (d : AuthTokens) :
    Except String (ServiceState × WaitLoginClosure) :=
  match svc.loginStateTmp with
  | none => Except.error "Cannot convert undefined or null to object"
  | some ls =>
    let merged : WaitLoginClosure :=
      ⟨d.state.getD ls.state, ls.machineId, d.access_token, d.refresh_token⟩
    Except.ok ({ svc with loginStateTmp := some ⟨merged.state, merged.machineId⟩ }, merged)

/-- `ZgsmAuthService.logout`: stop all three timers, run `onLogout`
(`retryWrapper` around `AuthApi.logoutUser`, which absorbs any revoke
failure), clear the stored login state, show the logout message.  An
error escaping `onLogout` would propagate (there is no catch), but
`logoutUser` never throws. -/
def ZgsmAuthService.logout (svc : ServiceState) (store : StoreState)
    (revokeOutcome : Except String Unit) :
    Except String (ServiceState × StoreState) :=
  let svc2 := ZgsmAuthService.stopRefreshToken
    (ZgsmAuthService.stopWaitLoginPolling (ZgsmAuthService.stopStartLoginTokenPoll svc))
  match (retryWrapper (fun _ => AuthApi.logoutUser revokeOutcome) defaultInterval 1).1 with
  | Except.error e => Except.error e
  | Except.ok _ => Except.ok (svc2, AuthStorage.clearAllLoginState store)

/-- The refresh-interval formula the spec states, as a function of the
expiry claim `E` (seconds) and the current time:
`min(E*1000 - 1800*1000 - now, INT32_MAX)`, floored to the minimum
positive delay 3000 when not positive. -/
def refreshIntervalOfExpiry (now E : Int) : Int :=
  let ri := min (E * 1000 - 1800 * 1000 - now) 2147483647
  if ri > 0 then ri else 3000

/-! ## Concrete JWTs used by witnesses and counterexamples

`jwtExp1000` has payload `eyJleHAiOjEwMDB9`, the base64url encoding of a
JSON object whose `exp` claim is 1000; `jwtExp5000` likewise with 5000. -/

def jwtExp1000 : String := "eyJhbGciOiJub25lIn0.eyJleHAiOjEwMDB9.a"

def jwtExp5000 : String := "eyJhbGciOiJub25lIn0.eyJleHAiOjUwMDB9.b"

/-! ## Theorems -/

/-- C6 counterexample: with `maxAttempts = 1` and a failing operation,
`retryWrapper` waits the backoff delay `delayFn(0) = 1000` ms before
raising the error — the claim says the error is raised without waiting
any backoff delay. -/
theorem C6_counterexample :
    retryWrapper (fun _ => (Except.error "boom" : Except String Nat)) defaultInterval 1
      = (Except.error "boom", [1000])
    ∧ ([1000] : List Nat) ≠ [] := by
  constructor
  · decide
  · decide

/-- C6 amended: for `maxAttempts = 0` or `1`, `retryWrapper` performs
exactly one attempt of the operation; a success is returned immediately
with no delay, a failure raises the attempt's own error after waiting
the single backoff delay `delayFn(0)`. -/
theorem C6_single_attempt {α : Type} (fn : Nat → Except String α)
    (interval : Nat → Nat) (m : Nat) (hm : m = 0 ∨ m = 1) :
    retryWrapper fn interval m =
      (match fn 0 with
       | Except.ok v => (Except.ok v, ([] : List Nat))
       | Except.error e => (Except.error e, [interval 0])) := by
  rcases hm with h | h <;> subst h <;>
    cases h0 : fn 0 <;> simp [retryWrapper, retryLoop, h0]

/-- C6 witness: the single-attempt behaviour at `maxAttempts = 1` with a
concretely failing operation. -/
theorem C6_single_attempt_witness :
    retryWrapper (fun _ => (Except.error "x" : Except String Nat)) defaultInterval 1
      = (Except.error "x", [defaultInterval 0]) :=
  C6_single_attempt (fun _ => (Except.error "x" : Except String Nat)) defaultInterval 1
    (Or.inr rfl)

/-- A store whose persisted values are exactly the token pair
`⟨some "A", some "R", some "S"⟩`, with a provider attached and an api
config name set. -/
def storeHoldingART : StoreState :=
  ⟨true, some "cfg", some "A", some "R", some "S", []⟩

/-- C7 counterexample: the store already holds exactly the values of the
token pair, yet `saveTokens` performs the three `setValue` writes and
the profile upsert — the source has no changed-value check, so saving is
not a no-op. -/
theorem C7_counterexample :
    storeHoldingART.zgsmAccessToken = (⟨some "A", some "R", some "S"⟩ : AuthTokens).access_token
    ∧ storeHoldingART.zgsmRefreshToken = (⟨some "A", some "R", some "S"⟩ : AuthTokens).refresh_token
    ∧ storeHoldingART.zgsmState = (⟨some "A", some "R", some "S"⟩ : AuthTokens).state
    ∧ (AuthStorage.saveTokens storeHoldingART ⟨some "A", some "R", some "S"⟩).writeLog
        ≠ storeHoldingART.writeLog := by
  refine ⟨rfl, rfl, rfl, ?_⟩
  decide

/-- C7 amended: token persistence is idempotent only at the value level.
When the store already holds exactly the values of the token pair,
`saveTokens` leaves the stored values unchanged, but it still
unconditionally performs the three state-store writes and the provider
profile upsert (there is no unchanged-value check). -/
theorem C7_save_value_idempotent (s : StoreState) (t : AuthTokens)
    (hp : s.hasProvider = true) (hc : truthy s.currentApiConfigName = true)
    (hA : s.zgsmAccessToken = t.access_token)
    (hR : s.zgsmRefreshToken = t.refresh_token)
    (hS : s.zgsmState = t.state) :
    (AuthStorage.saveTokens s t).zgsmAccessToken = s.zgsmAccessToken
    ∧ (AuthStorage.saveTokens s t).zgsmRefreshToken = s.zgsmRefreshToken
    ∧ (AuthStorage.saveTokens s t).zgsmState = s.zgsmState
    ∧ (AuthStorage.saveTokens s t).writeLog = s.writeLog ++
        [WriteOp.setValue "zgsmRefreshToken" t.refresh_token,
         WriteOp.setValue "zgsmAccessToken" t.access_token,
         WriteOp.setValue "zgsmState" t.state,
         WriteOp.upsertProfile (s.currentApiConfigName.getD "")] := by
  simp [AuthStorage.saveTokens, hp, hc, hA, hR, hS]

/-- C7 witness: value-level idempotence of `saveTokens` at the concrete
store `storeHoldingART`. -/
theorem C7_save_value_idempotent_witness :
    (AuthStorage.saveTokens storeHoldingART ⟨some "A", some "R", some "S"⟩).zgsmAccessToken
      = storeHoldingART.zgsmAccessToken
    ∧ (AuthStorage.saveTokens storeHoldingART ⟨some "A", some "R", some "S"⟩).zgsmRefreshToken
      = storeHoldingART.zgsmRefreshToken
    ∧ (AuthStorage.saveTokens storeHoldingART ⟨some "A", some "R", some "S"⟩).zgsmState
      = storeHoldingART.zgsmState
    ∧ (AuthStorage.saveTokens storeHoldingART ⟨some "A", some "R", some "S"⟩).writeLog
      = storeHoldingART.writeLog ++
        [WriteOp.setValue "zgsmRefreshToken" (some "R"),
         WriteOp.setValue "zgsmAccessToken" (some "A"),
         WriteOp.setValue "zgsmState" (some "S"),
         WriteOp.upsertProfile "cfg"] :=
  C7_save_value_idempotent storeHoldingART ⟨some "A", some "R", some "S"⟩
    rfl (by decide) rfl rfl rfl

/-- C10: with no provider attached, or with `currentApiConfigName`
unset, every storage mutator returns without touching the stored state,
and `logout()` still completes successfully while the previously stored
tokens remain in the store. -/
theorem C10_storage_mutators_frame (store : StoreState) (t : AuthTokens) (ls : LoginState)
    (h : store.hasProvider = false ∨ truthy store.currentApiConfigName = false) :
    AuthStorage.saveTokens store t = store
    ∧ AuthStorage.saveLoginState store ls = store
    ∧ AuthStorage.clearAllLoginState store = store
    ∧ ∀ (svc : ServiceState) (revoke : Except String Unit),
        ZgsmAuthService.logout svc store revoke =
          Except.ok (ZgsmAuthService.stopRefreshToken
            (ZgsmAuthService.stopWaitLoginPolling
              (ZgsmAuthService.stopStartLoginTokenPoll svc)), store) := by
  have hsave : AuthStorage.saveTokens store t = store := by
    rcases h with h | h <;> simp [AuthStorage.saveTokens, h]
  have hlogin : AuthStorage.saveLoginState store ls = store := by
    rcases h with h | h <;> simp [AuthStorage.saveLoginState, h]
  have hclear : AuthStorage.clearAllLoginState store = store := by
    rcases h with h | h <;> simp [AuthStorage.clearAllLoginState, h]
  refine ⟨hsave, hlogin, hclear, ?_⟩
  intro svc revoke
  cases revoke <;>
    simp [ZgsmAuthService.logout, retryWrapper, retryLoop, AuthApi.logoutUser, hclear]

/-- C10 witness: the frame property at a concrete detached store holding
tokens. -/
theorem C10_storage_mutators_frame_witness :
    AuthStorage.saveTokens ⟨false, some "cfg", some "A", some "R", some "S", []⟩
        ⟨some "a", some "r", some "s"⟩
      = ⟨false, some "cfg", some "A", some "R", some "S", []⟩
    ∧ AuthStorage.saveLoginState ⟨false, some "cfg", some "A", some "R", some "S", []⟩
        ⟨"s", none⟩
      = ⟨false, some "cfg", some "A", some "R", some "S", []⟩
    ∧ AuthStorage.clearAllLoginState ⟨false, some "cfg", some "A", some "R", some "S", []⟩
      = ⟨false, some "cfg", some "A", some "R", some "S", []⟩
    ∧ ∀ (svc : ServiceState) (revoke : Except String Unit),
        ZgsmAuthService.logout svc ⟨false, some "cfg", some "A", some "R", some "S", []⟩ revoke =
          Except.ok (ZgsmAuthService.stopRefreshToken
            (ZgsmAuthService.stopWaitLoginPolling
              (ZgsmAuthService.stopStartLoginTokenPoll svc)),
            ⟨false, some "cfg", some "A", some "R", some "S", []⟩) :=
  C10_storage_mutators_frame ⟨false, some "cfg", some "A", some "R", some "S", []⟩
    ⟨some "a", some "r", some "s"⟩ ⟨"s", none⟩ (Or.inl rfl)

/-- C8: whenever a refresh timer is armed (store attached, config name
set), `logout()` cancels all timers, clears the token store so that a
subsequent `getTokens()` yields a record with no token values, and
completes successfully — for every outcome of the remote revoke call,
including a throwing one (`AuthApi.logoutUser` absorbs the failure). -/
theorem C8_logout_cancels_and_clears (svc : ServiceState) (store : StoreState)
    (revoke : Except String Unit)
    (hp : store.hasProvider = true) (hc : truthy store.currentApiConfigName = true)
    (ht : svc.tokenRefreshTimer.isSome) :
    ∃ svc2 store2,
      ZgsmAuthService.logout svc store revoke = Except.ok (svc2, store2)
      ∧ svc2.tokenRefreshTimer = none
      ∧ svc2.waitLoginPollingArmed = false
      ∧ svc2.startLoginTokenPollArmed = false
      ∧ AuthStorage.getTokens store2 = some ⟨none, none, none⟩ := by
  refine ⟨ZgsmAuthService.stopRefreshToken
      (ZgsmAuthService.stopWaitLoginPolling (ZgsmAuthService.stopStartLoginTokenPoll svc)),
    AuthStorage.clearAllLoginState store, ?_, rfl, rfl, rfl, ?_⟩
  · cases revoke <;>
      simp [ZgsmAuthService.logout, retryWrapper, retryLoop, AuthApi.logoutUser]
  · simp [AuthStorage.clearAllLoginState, AuthStorage.getTokens, hp, hc]

/-- C8 witness: logout at a concrete state with an armed refresh timer
and a throwing revoke call. -/
theorem C8_logout_cancels_and_clears_witness :
    ∃ svc2 store2,
      ZgsmAuthService.logout
          ⟨some ⟨"s", some "m"⟩, true, some ⟨9999, "R", "m", "s"⟩, false, false⟩
          storeHoldingART (Except.error "revoke failed")
        = Except.ok (svc2, store2)
      ∧ svc2.tokenRefreshTimer = none
      ∧ svc2.waitLoginPollingArmed = false
      ∧ svc2.startLoginTokenPollArmed = false
      ∧ AuthStorage.getTokens store2 = some ⟨none, none, none⟩ :=
  C8_logout_cancels_and_clears
    ⟨some ⟨"s", some "m"⟩, true, some ⟨9999, "R", "m", "s"⟩, false, false⟩
    storeHoldingART (Except.error "revoke failed") rfl (by decide) rfl

/-- C2: a refresh response whose token fields are empty strings is
rejected — `refreshToken` raises the typed error and the store is left
exactly as it was (no save happens on the failure path). -/
theorem C2_refresh_empty_tokens_rejected (now : Int) (svc : ServiceState)
    (store : StoreState) (attempts : Nat → Except String LoginTokenResponse)
    (machineId st : String) (auto : Bool) (resp : LoginTokenResponse) (d : AuthTokens)
    (h0 : attempts 0 = Except.ok resp) (hd : resp.data = some d)
    (ha : d.access_token = some "") (hr : d.refresh_token = some "") :
    (ZgsmAuthService.refreshToken now svc store attempts machineId st auto).2.2 = store
    ∧ (ZgsmAuthService.refreshToken now svc store attempts machineId st auto).1
        = Except.error ("[" ++ st ++ "]" ++ (resp.message.getD "刷新token失败")) := by
  have hacc : refreshAccept svc resp = false := by
    simp [refreshAccept, hd, ha, truthy]
  constructor <;>
    simp [ZgsmAuthService.refreshToken, retryWrapper, retryLoop, h0, hacc]

/-- C2 witness: the refresh response `access_token = ""`,
`refresh_token = ""` at a concrete state leaves the concrete store
unchanged and raises the typed error. -/
theorem C2_refresh_empty_tokens_rejected_witness :
    (ZgsmAuthService.refreshToken 0 ⟨some ⟨"s", some "m"⟩, false, none, false, false⟩
        storeHoldingART
        (fun _ => Except.ok ⟨true, some ⟨some "", some "", some "s"⟩, none⟩)
        "m" "s" true).2.2 = storeHoldingART
    ∧ (ZgsmAuthService.refreshToken 0 ⟨some ⟨"s", some "m"⟩, false, none, false, false⟩
        storeHoldingART
        (fun _ => Except.ok ⟨true, some ⟨some "", some "", some "s"⟩, none⟩)
        "m" "s" true).1 = Except.error ("[" ++ "s" ++ "]" ++ "刷新token失败") :=
  C2_refresh_empty_tokens_rejected 0 ⟨some ⟨"s", some "m"⟩, false, none, false, false⟩
    storeHoldingART (fun _ => Except.ok ⟨true, some ⟨some "", some "", some "s"⟩, none⟩)
    "m" "s" true ⟨true, some ⟨some "", some "", some "s"⟩, none⟩
    ⟨some "", some "", some "s"⟩ rfl rfl rfl rfl

/-- C3 counterexample: at a successful login with an access token whose
expiry claim is 1000 and a refresh token whose expiry claim is 5000
(current time 0), the code arms the refresh timer with 3200000 ms —
the formula applied to the refresh token's claim — whereas the claim's
formula applied to the access token's claim yields the 3000 ms floor. -/
theorem C3_counterexample :
    (pollLoginStateStep 0 ⟨some ⟨"s", some "m"⟩, true, none, false, false⟩
        ⟨true, some "cfg", none, none, none, []⟩
        ⟨"s", some "m", some jwtExp1000, some jwtExp5000⟩
        (Except.ok ⟨true, some ⟨some "s", some AuthStatus.LOGGED_IN⟩⟩) 0 "m").1.tokenRefreshTimer
      = some ⟨3200000, jwtExp5000, "m", "s"⟩
    ∧ parseJwtExp jwtExp1000 = Except.ok (JsNum.num 1000)
    ∧ parseJwtExp jwtExp5000 = Except.ok (JsNum.num 5000)
    ∧ refreshIntervalOfExpiry 0 1000 = 3000
    ∧ (3200000 : Int) ≠ 3000 := by
  refine ⟨by decide, by decide, by decide, by decide, by decide⟩

/-- C3 amended: the computed refresh interval follows the claimed
formula `min(E*1000 - 1800*1000 - now, INT32_MAX)` with the 3000 ms
floor, where `E` is the expiry claim decoded from the token that is
passed in — which at every call site is the refresh token, not the
access token the spec names — and the fixed 24-hour fallback applies
exactly when no token (or an empty one) is supplied. -/
theorem C3_refresh_interval_formula (now : Int) (tok : String) (E : Int)
    (hne : tok ≠ "") (hE : parseJwtExp tok = Except.ok (JsNum.num E)) :
    getTokenRefreshInterval now (some tok) = Except.ok (refreshIntervalOfExpiry now E)
    ∧ getTokenRefreshInterval now none = Except.ok (24 * 60 * 60 * 1000)
    ∧ getTokenRefreshInterval now (some "") = Except.ok (24 * 60 * 60 * 1000) := by
  refine ⟨?_, by simp [getTokenRefreshInterval, truthy], by simp [getTokenRefreshInterval, truthy]⟩
  unfold parseJwtExp at hE
  cases hj : parseJwt tok with
  | error e => rw [hj] at hE; exact absurd hE (by simp)
  | ok j =>
    rw [hj] at hE
    have hnum : toNumber (jsonLookup j "exp") = JsNum.num E := by
      simpa using hE
    have harith : (E - 1800) * 1000 - now = E * 1000 - 1800 * 1000 - now := by ring
    cases j with
    | null => simp [jsonLookup, toNumber] at hnum
    | bool b =>
      simp [getTokenRefreshInterval, truthy, hne, hj, hnum, refreshIntervalOfExpiry, harith]
    | num n =>
      simp [getTokenRefreshInterval, truthy, hne, hj, hnum, refreshIntervalOfExpiry, harith]
    | str s =>
      simp [getTokenRefreshInterval, truthy, hne, hj, hnum, refreshIntervalOfExpiry, harith]
    | arr xs =>
      simp [getTokenRefreshInterval, truthy, hne, hj, hnum, refreshIntervalOfExpiry, harith]
    | obj fs =>
      simp [getTokenRefreshInterval, truthy, hne, hj, hnum, refreshIntervalOfExpiry, harith]

/-- C3 witness: the formula at the concrete refresh token whose expiry
claim is 5000 and at time 0. -/
theorem C3_refresh_interval_formula_witness :
    getTokenRefreshInterval 0 (some jwtExp5000) = Except.ok (refreshIntervalOfExpiry 0 5000)
    ∧ getTokenRefreshInterval 0 none = Except.ok (24 * 60 * 60 * 1000)
    ∧ getTokenRefreshInterval 0 (some "") = Except.ok (24 * 60 * 60 * 1000) :=
  C3_refresh_interval_formula 0 jwtExp5000 5000 (by decide) (by decide)

/-- A token that does not split into exactly three dot-separated parts
makes `parseJwt` throw `Invalid JWT`. -/
theorem parseJwt_not_three_parts (tok : String)
    (h3 : (splitOnChar '.' tok.data).length ≠ 3) :
    parseJwt tok = Except.error "Invalid JWT" := by
  unfold parseJwt
  rcases hl : splitOnChar '.' tok.data with _ | ⟨a, _ | ⟨b, _ | ⟨c, _ | ⟨d, t⟩⟩⟩⟩
  · rfl
  · rfl
  · rfl
  · rw [hl] at h3; simp at h3
  · rfl

/-- C9: `getTokenRefreshInterval` is partial on malformed input — only
an absent or empty token takes the 24-hour fallback; a non-empty token
that does not split into three dot-separated parts throws
`Invalid JWT`, any `parseJwt` failure (invalid base64url or invalid
JSON payload) propagates as the thrown error, and `startTokenRefresh`
rethrows it with no timer armed. -/
theorem C9_malformed_jwt_throws :
    (∀ now : Int,
      getTokenRefreshInterval now none = Except.ok (24 * 60 * 60 * 1000)
      ∧ getTokenRefreshInterval now (some "") = Except.ok (24 * 60 * 60 * 1000))
    ∧ (∀ (now : Int) (tok : String), tok ≠ "" →
        (splitOnChar '.' tok.data).length ≠ 3 →
        getTokenRefreshInterval now (some tok) = Except.error "Invalid JWT")
    ∧ (∀ (now : Int) (tok e : String), tok ≠ "" →
        parseJwt tok = Except.error e →
        getTokenRefreshInterval now (some tok) = Except.error e)
    ∧ (∀ (now : Int) (svc : ServiceState) (tok mid st e : String),
        svc.disposed = false →
        getTokenRefreshInterval now (some tok) = Except.error e →
        ZgsmAuthService.startTokenRefresh now svc tok mid st = Except.error e) := by
  have hprop : ∀ (now : Int) (tok e : String), tok ≠ "" →
      parseJwt tok = Except.error e →
      getTokenRefreshInterval now (some tok) = Except.error e := by
    intro now tok e hne hp
    simp [getTokenRefreshInterval, truthy, hne, hp]
  refine ⟨?_, ?_, hprop, ?_⟩
  · intro now
    exact ⟨by simp [getTokenRefreshInterval, truthy], by simp [getTokenRefreshInterval, truthy]⟩
  · intro now tok hne h3
    exact hprop now tok "Invalid JWT" hne (parseJwt_not_three_parts tok h3)
  · intro now svc tok mid st e hdisp herr
    simp [ZgsmAuthService.startTokenRefresh, ZgsmAuthService.stopRefreshToken, hdisp, herr]

/-- C9 witness: the one-part token `abc` throws `Invalid JWT` from both
`getTokenRefreshInterval` and `startTokenRefresh`, and a token whose
payload is not valid base64 propagates the decoding error. -/
theorem C9_malformed_jwt_throws_witness :
    getTokenRefreshInterval 0 (some "abc") = Except.error "Invalid JWT"
    ∧ ZgsmAuthService.startTokenRefresh 0 ⟨none, false, none, false, false⟩ "abc" "m" "s"
        = Except.error "Invalid JWT"
    ∧ getTokenRefreshInterval 0 (some "a.##.c") = Except.error "InvalidCharacterError" := by
  have h := C9_malformed_jwt_throws
  have h1 := h.2.1 0 "abc" (by decide) (by decide)
  exact ⟨h1,
    h.2.2.2 0 ⟨none, false, none, false, false⟩ "abc" "m" "s" "Invalid JWT" rfl h1,
    h.2.2.1 0 "a.##.c" "InvalidCharacterError" (by decide) rfl⟩

/-- C4 (code bug): the initial token poll does resolve on a matching
response and does reject with the login-timeout error after its ceiling
of 60 attempts when every response lacks tokens — but when an attempt
fails with a transport or remote error, the `.catch` handler only logs:
it neither schedules the next attempt nor rejects, so the poll stalls
with its promise never settled, instead of continuing toward the
timeout as the claim states. -/
theorem C4_token_poll_stalls_on_error :
    ZgsmAuthService.getStartLoginTokenPoll ⟨none, false, none, false, false⟩ "s"
        (fun _ => Except.error "ECONNREFUSED")
      = TokenPollOutcome.stalled
    ∧ ZgsmAuthService.getStartLoginTokenPoll ⟨none, false, none, false, false⟩ "s"
        (fun _ => Except.ok ⟨true, none, none⟩)
      = TokenPollOutcome.rejectedTimeout
    ∧ ZgsmAuthService.getStartLoginTokenPoll ⟨none, false, none, false, false⟩ "s"
        (fun _ => Except.ok ⟨true, some ⟨some "a", some "r", some "s"⟩, none⟩)
      = TokenPollOutcome.resolved ⟨true, some ⟨some "a", some "r", some "s"⟩, none⟩ := by
  refine ⟨by decide, by decide, by decide⟩

/-- C5 counterexample: when `openExternal` fails, `startLogin` raises
that very error and the token poll is never entered — contradicting the
claim that the failure does not abort and the poll is still entered. -/
theorem C5_counterexample :
    (ZgsmAuthService.startLogin ⟨none, true, none, false, false⟩ ⟨"s2", some "m"⟩
        (Except.error "cannot open browser") (fun _ => Except.ok ⟨true, none, none⟩)).1
      = Except.error "cannot open browser"
    ∧ (ZgsmAuthService.startLogin ⟨none, true, none, false, false⟩ ⟨"s2", some "m"⟩
        (Except.error "cannot open browser") (fun _ => Except.ok ⟨true, none, none⟩)).2.2
      = false := by
  exact ⟨by decide, by decide⟩

/-- C5 amended: a failing `openExternal` is reported to the user, but it
aborts `startLogin`: the error is re-raised by the catch block and the
token poll is not entered (the await sits inside the try block before
the poll). -/
theorem C5_open_failure_aborts (svc0 : ServiceState) (newState : LoginState)
    (e : String) (responses : Nat → Except String LoginTokenResponse) :
    ZgsmAuthService.startLogin svc0 newState (Except.error e) responses
      = (Except.error e,
         { startLoginSupersede svc0 with loginStateTmp := some newState }, false) := by
  simp [ZgsmAuthService.startLogin]

/-- C1 amended: starting a new login cancels the previous session's
scheduled wait-polling, refresh and token-poll timers, and the
confirmation poll discards stale results: after the second
`startLogin()` has installed session `s2`, a confirmation-poll tick
whose responses echo the first session's identifier
(`c.state ≠ s2.state`) never persists anything and never reports login
success, and in general a confirmation-poll tick persists tokens only
when the response's session identifier equals the controller's current
`loginStateTmp` session.  The initial token poll, however, validates a
response against its own closure parameter only — never against the
controller's current session — which is what lets a first-session fetch
still in flight across the second `startLogin()` resolve and, via the
`Object.assign` continuation, persist the first session's tokens
(see the counterexample). -/
theorem C1_supersede_discards_stale_polls
    (svc0 : ServiceState) (s2 : LoginState) (c : WaitLoginClosure)
    (now : Int) (store : StoreState) (respE : Except String LoginStateResponse)
    (attempt : Nat) (envMid : String)
    (hne : c.state ≠ s2.state)
    (hecho : ∀ r, respE = Except.ok r → ∀ d, r.data = some d → d.state = some c.state) :
    (startLoginSupersede svc0).waitLoginPollingArmed = false
    ∧ (startLoginSupersede svc0).tokenRefreshTimer = none
    ∧ (startLoginSupersede svc0).startLoginTokenPollArmed = false
    ∧ (pollLoginStateStep now { startLoginSupersede svc0 with loginStateTmp := some s2 }
        store c respE attempt envMid).2.1 = store
    ∧ (pollLoginStateStep now { startLoginSupersede svc0 with loginStateTmp := some s2 }
        store c respE attempt envMid).2.2 ≠ WaitPollOutcome.loginSuccess
    ∧ (∀ (svc : ServiceState) (r : LoginStateResponse) (d : LoginStateData),
        waitPollAccept svc r = true → r.data = some d →
        d.state = svc.loginStateTmp.map LoginState.state)
    ∧ (∀ (stateArg : String) (r : LoginTokenResponse) (d : AuthTokens),
        tokenPollAccept stateArg r = true → r.data = some d →
        d.state = some stateArg) := by
  refine ⟨rfl, rfl, rfl, ?_, ?_, ?_, ?_⟩
  case _ =>
    cases respE with
    | error e =>
      by_cases h : attempt + 1 > 60 <;> simp [pollLoginStateStep, h]
    | ok r =>
      have hacc : waitPollAccept { startLoginSupersede svc0 with loginStateTmp := some s2 }
          r = false := by
        cases hd : r.data with
        | none => simp [waitPollAccept, hd]
        | some d =>
          have hst : d.state = some c.state := hecho r rfl d hd
          simp [waitPollAccept, hd, hst, startLoginSupersede,
            ZgsmAuthService.stopStartLoginTokenPoll, ZgsmAuthService.stopRefreshToken,
            ZgsmAuthService.stopWaitLoginPolling, hne]
      by_cases h : attempt + 1 > 60 <;> simp [pollLoginStateStep, hacc, h]
  case _ =>
    cases respE with
    | error e =>
      by_cases h : attempt + 1 > 60 <;> simp [pollLoginStateStep, h]
    | ok r =>
      have hacc : waitPollAccept { startLoginSupersede svc0 with loginStateTmp := some s2 }
          r = false := by
        cases hd : r.data with
        | none => simp [waitPollAccept, hd]
        | some d =>
          have hst : d.state = some c.state := hecho r rfl d hd
          simp [waitPollAccept, hd, hst, startLoginSupersede,
            ZgsmAuthService.stopStartLoginTokenPoll, ZgsmAuthService.stopRefreshToken,
            ZgsmAuthService.stopWaitLoginPolling, hne]
      by_cases h : attempt + 1 > 60 <;> simp [pollLoginStateStep, hacc, h]
  case _ =>
    intro svc r d hacc hd
    simp [waitPollAccept, hd] at hacc
    have := hacc.2.1.2
    simpa [eq_comm] using this
  case _ =>
    intro stateArg r d hacc hd
    simp [tokenPollAccept, hd] at hacc
    exact hacc.2

/-- C1 counterexample: the claim as stated fails on the code.  First
`startLogin()` created session `s1` and its token poll dispatched a
fetch; a second `startLogin()` superseded it (timers cleared,
`loginStateTmp := s2`) but cannot cancel the in-flight fetch.  The stale
response carrying session `s1`'s tokens still passes the token poll's
acceptance test — it checks the closure's own `state` parameter, not the
controller's current session — resolving the first call's promise.  The
line-105 continuation `Object.assign(this.loginStateTmp, result.data)`
then overwrites the current session object's `state` back to `s1`, and
the next confirmation tick matches (`s1 = s1`), persists the *first*
session's tokens and reports login success. -/
theorem C1_counterexample :
    ("s1" : String) ≠ "s2"
    ∧ tokenPollAccept "s1" ⟨true, some ⟨some "a1", some jwtExp5000, some "s1"⟩, none⟩ = true
    ∧ startLoginResolveContinuation ⟨some ⟨"s2", some "m"⟩, false, none, true, false⟩
        ⟨some "a1", some jwtExp5000, some "s1"⟩
      = Except.ok (⟨some ⟨"s1", some "m"⟩, false, none, true, false⟩,
          ⟨"s1", some "m", some "a1", some jwtExp5000⟩)
    ∧ (pollLoginStateStep 0 ⟨some ⟨"s1", some "m"⟩, false, none, true, false⟩
        ⟨true, some "cfg", none, none, none, []⟩
        ⟨"s1", some "m", some "a1", some jwtExp5000⟩
        (Except.ok ⟨true, some ⟨some "s1", some AuthStatus.LOGGED_IN⟩⟩) 0 "m").2.1.zgsmAccessToken
      = some "a1"
    ∧ (pollLoginStateStep 0 ⟨some ⟨"s1", some "m"⟩, false, none, true, false⟩
        ⟨true, some "cfg", none, none, none, []⟩
        ⟨"s1", some "m", some "a1", some jwtExp5000⟩
        (Except.ok ⟨true, some ⟨some "s1", some AuthStatus.LOGGED_IN⟩⟩) 0 "m").2.1.zgsmState
      = some "s1"
    ∧ (pollLoginStateStep 0 ⟨some ⟨"s1", some "m"⟩, false, none, true, false⟩
        ⟨true, some "cfg", none, none, none, []⟩
        ⟨"s1", some "m", some "a1", some jwtExp5000⟩
        (Except.ok ⟨true, some ⟨some "s1", some AuthStatus.LOGGED_IN⟩⟩) 0 "m").2.2
      = WaitPollOutcome.loginSuccess := by
  refine ⟨by decide, by decide, by decide, by decide, by decide, by decide⟩

/-- C1 witness: with first session `s1` (its timers armed) superseded by
a second `startLogin()` installing session `s2`, a stale confirmation
tick echoing `s1` leaves the store untouched and does not report login
success. -/
theorem C1_supersede_discards_stale_polls_witness :
    (startLoginSupersede
        ⟨some ⟨"s1", some "m"⟩, true, some ⟨1, "R", "m", "s1"⟩, true, false⟩).waitLoginPollingArmed
      = false
    ∧ (startLoginSupersede
        ⟨some ⟨"s1", some "m"⟩, true, some ⟨1, "R", "m", "s1"⟩, true, false⟩).tokenRefreshTimer
      = none
    ∧ (startLoginSupersede
        ⟨some ⟨"s1", some "m"⟩, true, some ⟨1, "R", "m", "s1"⟩, true, false⟩).startLoginTokenPollArmed
      = false
    ∧ (pollLoginStateStep 0
        { startLoginSupersede
            ⟨some ⟨"s1", some "m"⟩, true, some ⟨1, "R", "m", "s1"⟩, true, false⟩ with
          loginStateTmp := some ⟨"s2", some "m"⟩ }
        storeHoldingART ⟨"s1", some "m", some "a", some "r"⟩
        (Except.ok ⟨true, some ⟨some "s1", some AuthStatus.LOGGED_IN⟩⟩) 0 "m").2.1
      = storeHoldingART
    ∧ (pollLoginStateStep 0
        { startLoginSupersede
            ⟨some ⟨"s1", some "m"⟩, true, some ⟨1, "R", "m", "s1"⟩, true, false⟩ with
          loginStateTmp := some ⟨"s2", some "m"⟩ }
        storeHoldingART ⟨"s1", some "m", some "a", some "r"⟩
        (Except.ok ⟨true, some ⟨some "s1", some AuthStatus.LOGGED_IN⟩⟩) 0 "m").2.2
      ≠ WaitPollOutcome.loginSuccess
    ∧ (∀ (svc : ServiceState) (r : LoginStateResponse) (d : LoginStateData),
        waitPollAccept svc r = true → r.data = some d →
        d.state = svc.loginStateTmp.map LoginState.state)
    ∧ (∀ (stateArg : String) (r : LoginTokenResponse) (d : AuthTokens),
        tokenPollAccept stateArg r = true → r.data = some d →
        d.state = some stateArg) :=
  C1_supersede_discards_stale_polls
    ⟨some ⟨"s1", some "m"⟩, true, some ⟨1, "R", "m", "s1"⟩, true, false⟩
    ⟨"s2", some "m"⟩ ⟨"s1", some "m", some "a", some "r"⟩ 0 storeHoldingART
    (Except.ok ⟨true, some ⟨some "s1", some AuthStatus.LOGGED_IN⟩⟩) 0 "m"
    (by decide) (by intro r hr d hd; cases hr; cases hd; rfl)
